import Mathlib

/-!
# Verification of the iran-price-proxy server (`src/server.py`)

A shallow embedding of the price-lookup proxy: the number parser `to_int`,
the regex-based price extractor `extract_last_price`, the two source
fetchers, the retrying resolver `resolve_price`, and the `/v1/price`
request handler `get_price`.  Network and clock effects are passed in as
explicit oracles; machine strings are Lean `String`s viewed as `List Char`.
-/

set_option autoImplicit false

namespace PriceProxy

/-! ## Character classes

`server.py` uses CPython `re` on `str`, where `\d` matches any Unicode
decimal digit (category Nd), `\s` matches Unicode whitespace, and the
explicit classes in the two price regexes name ASCII digits, Persian
digits `۰`-`۹` (U+06F0..U+06F9), the comma, the Arabic thousands
separator `٬` (U+066C) and the period. -/

/-- ASCII digit `0`-`9`: the class `[0-9]` in the regexes. -/
def isAsciiDigit (c : Char) : Bool :=
  48 ≤ c.toNat && c.toNat ≤ 57

/-- Persian digit `۰`-`۹` (U+06F0..U+06F9): the class `[۰-۹]`. -/
def isPersianDigit (c : Char) : Bool :=
  0x6F0 ≤ c.toNat && c.toNat ≤ 0x6F9

/-- First-character class of the fallback regex: `[۰-۹0-9]`. -/
def isPLDigit (c : Char) : Bool :=
  isAsciiDigit c || isPersianDigit c

/-- The digit/separator class `[۰-۹0-9,٬.]` shared by the capture group of
the labeled regex and the tail of the fallback regex. -/
def isSepDigit (c : Char) : Bool :=
  isPLDigit c || c = ',' || c.toNat = 0x66C || c = '.'

/-- Start codepoints of the Unicode `Nd` (decimal digit) blocks, each of
length 10, as known to CPython's `re` module (`\d`) and to `int()`. -/
def ndBases : List Nat :=
  [0x30, 0x660, 0x6F0, 0x7C0, 0x966, 0x9E6, 0xA66, 0xAE6, 0xB66, 0xBE6,
   0xC66, 0xCE6, 0xD66, 0xDE6, 0xE50, 0xED0, 0xF20, 0x1040, 0x1090, 0x17E0,
   0x1810, 0x1946, 0x19D0, 0x1A80, 0x1A90, 0x1B50, 0x1BB0, 0x1C40, 0x1C50,
   0xA620, 0xA8D0, 0xA900, 0xA9D0, 0xA9F0, 0xAA50, 0xABF0, 0xFF10,
   0x104A0, 0x10D30, 0x11066, 0x110F0, 0x11136, 0x111D0, 0x112F0, 0x11450,
   0x114D0, 0x11650, 0x116C0, 0x11730, 0x118E0, 0x11950, 0x11C50, 0x11D50,
   0x11DA0, 0x16A60, 0x16AC0, 0x16B50, 0x1D7CE, 0x1D7D8, 0x1D7E2, 0x1D7EC,
   0x1D7F6, 0x1E140, 0x1E2F0, 0x1E950, 0x1FBF0]

/-- Whether codepoint `n` falls in the ten-codepoint `Nd` block starting
at `b`. -/
def inNdBlock (b n : Nat) : Bool :=
  decide (b ≤ n) && decide (n < b + 10)

/-- Unicode decimal digit: what CPython's `[^\d]` (the `NUM_RE` pattern)
preserves. -/
def isUnicodeDigit (c : Char) : Bool :=
  ndBases.any (fun b => inNdBlock b c.toNat)

/-- Decimal value of a Unicode digit (offset into its `Nd` block); `0` on
non-digits, which never arises after filtering. -/
def digitVal (c : Char) : Nat :=
  match ndBases.find? (fun b => inNdBlock b c.toNat) with
  | some b => c.toNat - b
  | none => 0

/-- Unicode whitespace as recognized by CPython's `str.strip()` and by
`\s` in `re` on `str`. -/
def pyIsSpace (c : Char) : Bool :=
  (9 ≤ c.toNat && c.toNat ≤ 13) || (28 ≤ c.toNat && c.toNat ≤ 32) ||
  c.toNat = 0x85 || c.toNat = 0xA0 || c.toNat = 0x1680 ||
  (0x2000 ≤ c.toNat && c.toNat ≤ 0x200A) ||
  c.toNat = 0x2028 || c.toNat = 0x2029 || c.toNat = 0x202F ||
  c.toNat = 0x205F || c.toNat = 0x3000

/-- Python `symbol.strip()`: drop leading and trailing whitespace. -/
def pyStrip (s : String) : String :=
  String.mk (((s.data.dropWhile pyIsSpace).reverse.dropWhile pyIsSpace).reverse)

/-! ## Number parser (`to_int`, server.py lines 36-46) -/

/-- The `str.maketrans`/`translate` step of `to_int`: each Persian digit
`۰`-`۹` is mapped to its Latin counterpart, all other characters kept. -/
def persianToLatin (c : Char) : Char :=
  if 0x6F0 ≤ c.toNat && c.toNat ≤ 0x6F9 then Char.ofNat (c.toNat - 0x6F0 + 48)
  else c

/-- Value of Python `int(s)` on a nonempty string of Unicode decimal
digits: positional base-10 accumulation of the digit values. -/
def pyIntOfDigits (ds : List Char) : Nat :=
  ds.foldl (fun acc c => acc * 10 + digitVal c) 0

/-- `to_int(num_text)` from server.py: empty input is falsy and yields
`None`; otherwise Persian digits are transliterated to Latin, every
character not matched by `\d` (Unicode decimal digit) is removed by
`NUM_RE.sub`, and the remainder, if any, is parsed by `int()`. -/
def to_int (num_text : String) : Option Nat :=
  if num_text = "" then none
  else
    let s := num_text.data.map persianToLatin
    let s2 := s.filter isUnicodeDigit
    if s2 = [] then none else some (pyIntOfDigits s2)

/-! ## Price extractor (`extract_last_price`, server.py lines 48-59)

The two patterns are modelled directly with Python `re` search semantics:
leftmost match wins and greedy quantifiers backtrack from the longest
candidate.

Labeled pattern: `آخرین\s*قیمت[^0-9]*([۰-۹0-9,٬.]+)`.  After the literal
`آخرین`, the greedy `\s*` is deterministic (the following literal starts
with the non-whitespace `ق`), and the interplay of the greedy `[^0-9]*`
with the greedy group is: take the longest ASCII-digit-free prefix, then
backtrack to the largest position whose character lies in the group class
and capture the maximal class run from there. -/

/-- Characters of the literal `آخرین` in the labeled regex. -/
def labelWordA : List Char := "آخرین".data

/-- Characters of the literal `قیمت` in the labeled regex. -/
def labelWordB : List Char := "قیمت".data

/-- Strip a literal prefix of characters, or fail. -/
def stripLit : List Char → List Char → Option (List Char)
  | [], cs => some cs
  | _ :: _, [] => none
  | l :: ls, c :: cs => if c = l then stripLit ls cs else none

/-- Backtracking tail of the labeled pattern on the text after `قیمت`:
try group start position `k` (largest first); the character there must be
in the digit/separator class, and the capture is the maximal class run. -/
def groupFrom (rest : List Char) : Nat → Option (List Char)
  | 0 =>
    match rest.head? with
    | some c => if isSepDigit c then some (rest.takeWhile isSepDigit) else none
    | none => none
  | k + 1 =>
    match (rest.drop (k + 1)).head? with
    | some c =>
      if isSepDigit c then some ((rest.drop (k + 1)).takeWhile isSepDigit)
      else groupFrom rest k
    | none => groupFrom rest k

/-- Match the labeled pattern anchored at the head of `cs`; on success
return the characters captured by group 1. -/
def matchLabelAt (cs : List Char) : Option (List Char) :=
  match stripLit labelWordA cs with
  | none => none
  | some r1 =>
    let r2 := r1.dropWhile pyIsSpace
    match stripLit labelWordB r2 with
    | none => none
    | some r3 =>
      let n0 := (r3.takeWhile (fun c => !isAsciiDigit c)).length
      groupFrom r3 n0

/-- `re.search` for the labeled pattern: scan start positions left to
right, return group 1 of the first successful match. -/
def searchLabel : List Char → Option (List Char)
  | [] => none
  | c :: cs =>
    match matchLabelAt (c :: cs) with
    | some g => some g
    | none => searchLabel cs

/-- Match the fallback pattern `([۰-۹0-9][۰-۹0-9,٬.]{5,})` anchored at the
head of `cs`: a digit followed by at least five digit/separator
characters, captured greedily. -/
def matchRunAt : List Char → Option (List Char)
  | [] => none
  | c :: rest =>
    if isPLDigit c then
      let run := rest.takeWhile isSepDigit
      if 5 ≤ run.length then some (c :: run) else none
    else none

/-- `re.search` for the fallback pattern: leftmost match wins. -/
def searchRun : List Char → Option (List Char)
  | [] => none
  | c :: cs =>
    match matchRunAt (c :: cs) with
    | some g => some g
    | none => searchRun cs

/-- `extract_last_price(html)` from server.py: the labeled match is
authoritative when its parse is truthy (present and nonzero); otherwise
the first run of six or more digit/separator characters starting with a
digit is parsed and returned (possibly zero); otherwise `None`. -/
def extract_last_price (html : String) : Option Nat :=
  let cs := html.data
  let labeled : Option Nat :=
    match searchLabel cs with
    | some g =>
      if g.isEmpty then none
      else
        match to_int (String.mk g) with
        | some v => if v = 0 then none else some v
        | none => none
    | none => none
  match labeled with
  | some v => some v
  | none =>
    match searchRun cs with
    | some g2 => if g2.isEmpty then none else to_int (String.mk g2)
    | none => none

example : "آخرین".data.map Char.toNat = [0x622, 0x62E, 0x631, 0x6CC, 0x646] := by decide
example : "قیمت".data.map Char.toNat = [0x642, 0x6CC, 0x645, 0x62A] := by decide
example : to_int "۱۲۳,۴۵۶" = some 123456 := by decide
example : to_int "" = none := by decide
example : to_int "abc" = none := by decide
example : extract_last_price "آخرین قیمت 123456 x 7654321" = some 123456 := by decide
example : extract_last_price "1,2,3,4" = some 1234 := by decide
example : extract_last_price "hello 12345" = none := by decide
example : extract_last_price "آخرین قیمت ۱۲۳" = some 3 := by decide
example : extract_last_price "آخرین  قیمت: ٬٬123" = some 123 := by decide
example : extract_last_price "آخرین قیمت xx 0 and 1234567" = some 1234567 := by decide
example : extract_last_price "آخرینقیمت99" = some 99 := by decide
example : extract_last_price "x آخرین قیمت .,." = none := by decide
example : extract_last_price "d8,999 آخرین قیمت 777777" = some 777777 := by decide
example : extract_last_price "۱۲۳۴۵۶ only persian" = some 123456 := by decide
example : extract_last_price "0000000" = some 0 := by decide
example : extract_last_price "آخرین قیمت ۱۲۳۴۵۶" = some 6 := by decide
example : extract_last_price "price ٥٥٥٥٥٥ arabic" = none := by decide
example : to_int "٥" = some 5 := by decide
example : to_int "1٥" = some 15 := by decide
example : to_int "0000000" = some 0 := by decide

/-! ## Allowlist and configuration (server.py lines 8-19) -/

/-- The static allowlist `KNOWN`: symbol, instrument kind, unit. The second
entry is the deliberate typo variant (letter `O` for digit `0`) kept as its
own key. -/
def KNOWN : List (String × String × String) :=
  [("CD1G0B0001", "gold_cert", "0.1 g"),
   ("CD1GOB0001", "gold_cert", "0.1 g"),
   ("CD1SIB0001", "silver_cert", "1 g")]

/-- The allowlisted symbols, in table order. -/
def knownKeys : List String := KNOWN.map (fun e => e.1)

/-- `sym in KNOWN` / `KNOWN[sym]` as a lookup of (kind, unit). -/
def knownLookup (s : String) : Option (String × String) :=
  (KNOWN.find? (fun e => e.1 = s)).map (fun e => e.2)

/-- Default of the `UPSTREAM_RETRIES` environment knob (`RETRIES`). -/
def RETRIES : Nat := 3

/-- Default of the `API_KEY` environment knob. -/
def defaultApiKey : String := "change-me"

/-! ## Source fetchers (server.py lines 61-83)

A transport oracle `net : String → HttpResult` gives, for each URL, the
outcome of the single `httpx` GET: either a response (status and body
text) or a raised transport exception (timeout, connection failure, …),
which the `except Exception` handler turns into `None`. -/

/-- Outcome of one HTTP GET: a response, or any raised transport
exception. -/
inductive HttpResult where
  | success (status : Nat) (text : String)
  | failure
deriving DecidableEq, Repr

/-- `fetch_chartix(symbol)`: GET the chartix market page; `None` on a
non-200 status or any exception, else extract from the body. -/
def fetch_chartix (net : String → HttpResult) (symbol : String) : Option Nat :=
  match net ("https://chartix.ir/market/BOURSE_KALA/" ++ symbol) with
  | .failure => none
  | .success status text =>
    if status ≠ 200 then none else extract_last_price text

/-- `fetch_rahavard(symbol)`: GET the rahavard search page; `None` on a
non-200 status or any exception, else extract from the body. -/
def fetch_rahavard (net : String → HttpResult) (symbol : String) : Option Nat :=
  match net ("https://rahavard365.com/search?q=" ++ symbol) with
  | .failure => none
  | .success status text =>
    if status ≠ 200 then none else extract_last_price text

/-! ## Resolver (`resolve_price`, server.py lines 85-94)

The fetch oracle `f src symbol k` gives the value of the `k`-th call (per
source) of `sources[src](symbol)`; successive calls may differ because the
network does.  The resolver's own logic — source ordering, the truthiness
test `if price:`, the retry bound, early return — is embedded from the
code.  Each embedded operation also counts the fetcher calls it makes. -/

/-- Truthiness of the Python `Optional[int]` result: `if price:`. -/
def isUsable : Option Nat → Bool
  | some v => v ≠ 0
  | none => false

/-- The inner `for _ in range(RETRIES)` loop on one source, starting at
per-source attempt index `k` with `r` attempts left: returns the first
truthy fetch result (if any) and the number of calls made. -/
def trySource (f : String → String → Nat → Option Nat) (src symbol : String) :
    Nat → Nat → Option Nat × Nat
  | _, 0 => (none, 0)
  | k, r + 1 =>
    let p := f src symbol k
    if isUsable p then (p, 1)
    else
      let q := trySource f src symbol (k + 1) r
      (q.1, q.2 + 1)

/-- The outer `for src in order` loop: first source whose retry loop
yields a truthy price wins; its name is reported; calls accumulate. -/
def resolveList (f : String → String → Nat → Option Nat) (symbol : String)
    (retries : Nat) : List String → Option Nat × String × Nat
  | [] => (none, "", 0)
  | src :: rest =>
    let q := trySource f src symbol 0 retries
    match q.1 with
    | some v => (some v, src, q.2)
    | none =>
      let w := resolveList f symbol retries rest
      (w.1, w.2.1, q.2 + w.2.2)

/-- `order = [prefer] + [s for s in ("chartix", "rahavard") if s != prefer]`. -/
def ORDER (prefer : String) : List String :=
  prefer :: (["chartix", "rahavard"].filter (fun s => s ≠ prefer))

/-- `resolve_price(symbol, prefer)`: walk the ordered sources with up to
`retries` attempts each; result, winning source name (`""` on
exhaustion), and total number of fetcher calls. -/
def resolve_price (f : String → String → Nat → Option Nat) (retries : Nat)
    (symbol prefer : String) : Option Nat × String × Nat :=
  resolveList f symbol retries (ORDER prefer)

/-! ## Request handler (`get_price`, server.py lines 111-137) -/

/-- The JSON body of a 200 response (`PriceResponse`). -/
structure PriceResponse where
  symbol : String
  lastPrice : Nat
  currency : String
  per : String
  unitDetails : Option String
  source : String
  fetchedAt : String
deriving DecidableEq, Repr

/-- Outcome of one `/v1/price` request: a 200 body or an
`HTTPException(status_code, detail)`. -/
inductive HandlerResult where
  | ok (resp : PriceResponse)
  | error (status : Nat) (detail : String)
deriving DecidableEq, Repr

/-- Python's `f"...{prefer}..."` on the `Optional[str]` parameter. -/
def preferShown : Option String → String
  | some p => p
  | none => "None"

/-- Python's `prefer or "rahavard"`: `None` and the empty string are
falsy. -/
def preferOrDefault : Option String → String
  | some p => if p = "" then "rahavard" else p
  | none => "rahavard"

/-- `get_price(symbol, prefer, x_api_key)`: key check, strip, allowlist
check, resolution, 502 on falsy price, else the assembled quote.  `now`
stands for `datetime.now(timezone.utc).isoformat()`; the second component
counts upstream fetcher calls made while serving the request. -/
def get_price (f : String → String → Nat → Option Nat) (retries : Nat)
    (api_key : String) (now : String) (symbol : String)
    (prefer : Option String) (x_api_key : Option String) :
    HandlerResult × Nat :=
  if x_api_key ≠ some api_key then (.error 401 "Invalid API key", 0)
  else
    let sym := pyStrip symbol
    match knownLookup sym with
    | none => (.error 400 "Unknown symbol (allowlisted symbols only)", 0)
    | some info =>
      let q := resolve_price f retries sym (preferOrDefault prefer)
      let detail :=
        "Could not fetch last price from " ++ preferShown prefer ++ "/fallbacks"
      match q.1 with
      | none => (.error 502 detail, q.2.2)
      | some v =>
        if v = 0 then (.error 502 detail, q.2.2)
        else
          let unit_details :=
            if info.1 = "gold_cert" then "گواهی طلا ۰٫۱ گرم"
            else "گواهی نقره ۱ گرم"
          (.ok ⟨sym, v, "IRR", "unit", some unit_details, q.2.1, now⟩, q.2.2)

example :
    resolve_price (fun _ _ _ => none) 2 "CD1G0B0001" "rahavard" =
      (none, "", 4) := by decide
example :
    resolve_price (fun src _ _ => if src = "chartix" then some 42 else none)
      2 "CD1G0B0001" "rahavard" = (some 42, "chartix", 3) := by decide
example :
    (get_price (fun _ _ _ => some 7) 3 "k" "t" "CD1G0B0001"
      (some "rahavard") (some "k")).1 =
      .ok ⟨"CD1G0B0001", 7, "IRR", "unit", some "گواهی طلا ۰٫۱ گرم",
        "rahavard", "t"⟩ := by decide
example :
    (get_price (fun _ _ _ => some 7) 3 "k" "t" "zzz"
      (some "rahavard") (some "wrong")).1 = .error 401 "Invalid API key" := by
  decide
example :
    (get_price (fun _ _ _ => none) 1 "k" "t" " CD1SIB0001 "
      (some "chartix") (some "k")).1 =
      .error 502 "Could not fetch last price from chartix/fallbacks" := by
  decide

/-! ## Resolver lemmas -/

/-- The secondary source of the fallback order: the unique configured
source other than `prefer`. -/
def otherOf (prefer : String) : String :=
  if prefer = "chartix" then "rahavard" else "chartix"

theorem trySource_fail_all (f : String → String → Nat → Option Nat)
    (src sym : String) (r : Nat) :
    ∀ k, (∀ j, j < r → isUsable (f src sym (k + j)) = false) →
      trySource f src sym k r = (none, r) := by
  induction r with
  | zero => intro k _; rfl
  | succ r ih =>
    intro k h
    have h0 : isUsable (f src sym k) = false := by
      simpa using h 0 (Nat.succ_pos r)
    have hrec := ih (k + 1) (fun j hj => by
      have hh := h (j + 1) (Nat.succ_lt_succ hj)
      have he : k + (j + 1) = k + 1 + j := by omega
      rwa [he] at hh)
    simp [trySource, h0, hrec]

theorem trySource_none (f : String → String → Nat → Option Nat)
    (src sym : String) (r : Nat) :
    ∀ k c, trySource f src sym k r = (none, c) →
      c = r ∧ ∀ j, j < r → isUsable (f src sym (k + j)) = false := by
  induction r with
  | zero =>
    intro k c h
    simp only [trySource, Prod.mk.injEq] at h
    exact ⟨h.2.symm, fun j hj => absurd hj (Nat.not_lt_zero j)⟩
  | succ r ih =>
    intro k c h
    by_cases h0 : isUsable (f src sym k) = true
    · exfalso
      have hs : trySource f src sym k (r + 1) = (f src sym k, 1) := by
        simp [trySource, h0]
      rw [hs] at h
      cases hp : f src sym k with
      | none => rw [hp] at h0; simp [isUsable] at h0
      | some v => rw [hp] at h; simp at h
    · have h0' : isUsable (f src sym k) = false := by
        simpa using h0
      have hs : trySource f src sym k (r + 1) =
          ((trySource f src sym (k + 1) r).1,
           (trySource f src sym (k + 1) r).2 + 1) := by
        simp [trySource, h0']
      rw [hs] at h
      rcases hqe : trySource f src sym (k + 1) r with ⟨p', c'⟩
      rw [hqe] at h
      simp only [Prod.mk.injEq] at h
      obtain ⟨hrec1, hrec2⟩ := ih (k + 1) c' (by rw [hqe, h.1])
      refine ⟨by omega, fun j hj => ?_⟩
      cases j with
      | zero => simpa using h0'
      | succ j =>
        have he : k + (j + 1) = k + 1 + j := by omega
        rw [he]
        exact hrec2 j (by omega)

theorem trySource_first_usable (f : String → String → Nat → Option Nat)
    (src sym : String) (k r : Nat)
    (h : isUsable (f src sym k) = true) :
    trySource f src sym k (r + 1) = (f src sym k, 1) := by
  simp [trySource, h]

theorem trySource_some_ne_zero (f : String → String → Nat → Option Nat)
    (src sym : String) (r : Nat) :
    ∀ k v c, trySource f src sym k r = (some v, c) → v ≠ 0 := by
  induction r with
  | zero => intro k v c h; simp [trySource] at h
  | succ r ih =>
    intro k v c h
    by_cases h0 : isUsable (f src sym k) = true
    · have hs : trySource f src sym k (r + 1) = (f src sym k, 1) := by
        simp [trySource, h0]
      rw [hs] at h
      cases hp : f src sym k with
      | none => rw [hp] at h; simp at h
      | some w =>
        rw [hp] at h
        simp only [Prod.mk.injEq, Option.some.injEq] at h
        rw [hp] at h0
        simp only [isUsable, decide_eq_true_eq] at h0
        rw [← h.1]
        exact h0
    · have h0' : isUsable (f src sym k) = false := by simpa using h0
      have hs : trySource f src sym k (r + 1) =
          ((trySource f src sym (k + 1) r).1,
           (trySource f src sym (k + 1) r).2 + 1) := by
        simp [trySource, h0']
      rw [hs] at h
      rcases hqe : trySource f src sym (k + 1) r with ⟨p', c'⟩
      rw [hqe] at h
      simp only [Prod.mk.injEq] at h
      exact ih (k + 1) v c' (by rw [hqe, h.1])

theorem resolveList_some_ne_zero (f : String → String → Nat → Option Nat)
    (sym : String) (retries : Nat) :
    ∀ l v s n, resolveList f sym retries l = (some v, s, n) → v ≠ 0 := by
  intro l
  induction l with
  | nil => intro v s n h; simp [resolveList] at h
  | cons src rest ih =>
    intro v s n h
    rcases hq : trySource f src sym 0 retries with ⟨p, c⟩
    cases p with
    | some w =>
      simp only [resolveList, hq, Prod.mk.injEq, Option.some.injEq] at h
      have := trySource_some_ne_zero f src sym retries 0 w c hq
      rw [← h.1]
      exact this
    | none =>
      rcases hw : resolveList f sym retries rest with ⟨p', s', n'⟩
      simp only [resolveList, hq, hw, Prod.mk.injEq] at h
      exact ih v s' n' (by rw [hw, h.1])

/-- C1: for an allowlisted symbol and a configured preferred source, the
attempt order is the preferred source first and the remaining configured
source second, duplicate-free; when the preferred source fails all of its
attempts and the second source succeeds on its first attempt, resolution
returns that price with the second source's name after exactly
`retries + 1` fetcher calls, never touching a later attempt. -/
theorem resolve_preferred_first_then_fallback
    (f : String → String → Nat → Option Nat) (retries : Nat)
    (sym prefer : String) (hr : 1 ≤ retries)
    (hsym : knownKeys.contains sym = true)
    (hp : prefer = "chartix" ∨ prefer = "rahavard")
    (hfail : ∀ k, k < retries → isUsable (f prefer sym k) = false)
    (v : Nat) (hv : f (otherOf prefer) sym 0 = some v) (hv0 : v ≠ 0) :
    ORDER prefer = [prefer, otherOf prefer] ∧
    otherOf prefer ≠ prefer ∧
    (ORDER prefer).Nodup ∧
    resolve_price f retries sym prefer = (some v, otherOf prefer, retries + 1) := by
  have h1 : trySource f prefer sym 0 retries = (none, retries) :=
    trySource_fail_all f prefer sym retries 0 (fun j hj => by
      simpa using hfail j hj)
  obtain ⟨r', hr'⟩ : ∃ r', retries = r' + 1 :=
    ⟨retries - 1, by omega⟩
  have husable : isUsable (f (otherOf prefer) sym 0) = true := by
    rw [hv]
    simp [isUsable, hv0]
  have h2 : trySource f (otherOf prefer) sym 0 retries = (some v, 1) := by
    rw [hr']
    rw [trySource_first_usable f (otherOf prefer) sym 0 r' husable, hv]
  rcases hp with hp | hp <;> subst hp
  · have ho : otherOf "chartix" = "rahavard" := by decide
    rw [ho] at h2
    refine ⟨by rw [ho]; decide, by rw [ho]; decide, by decide, ?_⟩
    rw [ho, resolve_price, show ORDER "chartix" = ["chartix", "rahavard"] from by decide]
    simp only [resolveList, h1, h2]
  · have ho : otherOf "rahavard" = "chartix" := by decide
    rw [ho] at h2
    refine ⟨by rw [ho]; decide, by rw [ho]; decide, by decide, ?_⟩
    rw [ho, resolve_price, show ORDER "rahavard" = ["rahavard", "chartix"] from by decide]
    simp only [resolveList, h1, h2]

/-- C2: resolution comes back absent (with an empty source name) only
when every configured source was attempted exactly `retries` times, none
usable, for `2 * retries` fetcher calls in total; the handler then
answers 502 with a detail message that contains the requested preferred
source name. -/
theorem resolve_exhaustion_gives_502 :
    (∀ (f : String → String → Nat → Option Nat) (retries : Nat)
       (sym prefer : String),
       (prefer = "chartix" ∨ prefer = "rahavard") →
       (resolve_price f retries sym prefer).1 = none →
       resolve_price f retries sym prefer = (none, "", 2 * retries) ∧
       ∀ src, src ∈ ORDER prefer → ∀ k, k < retries →
         isUsable (f src sym k) = false) ∧
    (∀ (f : String → String → Nat → Option Nat) (retries : Nat)
       (cfg now symbol p : String),
       (p = "chartix" ∨ p = "rahavard") →
       (resolve_price f retries (pyStrip symbol) p).1 = none →
       (knownLookup (pyStrip symbol)).isSome = true →
       (get_price f retries cfg now symbol (some p) (some cfg)).1 =
         .error 502 ("Could not fetch last price from " ++ p ++ "/fallbacks")) := by
  have main : ∀ (f : String → String → Nat → Option Nat) (retries : Nat)
      (sym prefer : String),
      (prefer = "chartix" ∨ prefer = "rahavard") →
      (resolve_price f retries sym prefer).1 = none →
      resolve_price f retries sym prefer = (none, "", 2 * retries) ∧
      ∀ src, src ∈ ORDER prefer → ∀ k, k < retries →
        isUsable (f src sym k) = false := by
    intro f retries sym prefer hp habs
    rcases hq1 : trySource f prefer sym 0 retries with ⟨p1, c1⟩
    rcases hq2 : trySource f (otherOf prefer) sym 0 retries with ⟨p2, c2⟩
    have horder : ORDER prefer = [prefer, otherOf prefer] := by
      rcases hp with hp | hp <;> subst hp <;> decide
    have hres : resolve_price f retries sym prefer =
        resolveList f sym retries [prefer, otherOf prefer] := by
      rw [resolve_price, horder]
    cases p1 with
    | some w =>
      exfalso
      rw [hres] at habs
      simp [resolveList, hq1] at habs
    | none =>
      cases p2 with
      | some w =>
        exfalso
        rw [hres] at habs
        simp [resolveList, hq1, hq2] at habs
      | none =>
        obtain ⟨hc1, hall1⟩ := trySource_none f prefer sym retries 0 c1 hq1
        obtain ⟨hc2, hall2⟩ := trySource_none f (otherOf prefer) sym retries 0 c2 hq2
        constructor
        · rw [hres]
          simp only [resolveList, hq1, hq2]
          subst hc1; subst hc2
          simp
          omega
        · intro src hsrc k hk
          rw [horder] at hsrc
          simp only [List.mem_cons, List.mem_singleton, List.not_mem_nil,
            or_false] at hsrc
          rcases hsrc with hsrc | hsrc <;> subst hsrc
          · simpa using hall1 k hk
          · simpa using hall2 k hk
  refine ⟨main, ?_⟩
  intro f retries cfg now symbol p hp habs hknown
  have hpd : preferOrDefault (some p) = p := by
    rcases hp with hp | hp <;> subst hp <;> decide
  rcases hkl : knownLookup (pyStrip symbol) with _ | info
  · rw [hkl] at hknown; simp at hknown
  · rcases hq : resolve_price f retries (pyStrip symbol) p with ⟨pr, s, n⟩
    rw [hq] at habs
    simp only at habs
    subst habs
    simp only [get_price, hpd, preferShown, hkl, hq]
    simp

/-- C9: a request whose `X-API-Key` header is missing or does not match
the configured key is rejected with 401 before the allowlist check and
before any upstream fetch (zero fetcher calls), whatever the symbol. -/
theorem bad_key_rejected_first
    (f : String → String → Nat → Option Nat) (retries : Nat)
    (cfg now symbol : String) (prefer : Option String)
    (key : Option String) (hk : key ≠ some cfg) :
    get_price f retries cfg now symbol prefer key =
      (.error 401 "Invalid API key", 0) := by
  simp [get_price, hk]

/-- Closed instance of `bad_key_rejected_first`: wrong key and a symbol
outside the allowlist still give 401 (not 400) and no fetch. -/
theorem bad_key_rejected_first_check :
    get_price (fun _ _ _ => some 7) 3 "secret" "t" "NOT-ALLOWLISTED"
      (some "rahavard") (some "wrong") = (.error 401 "Invalid API key", 0) :=
  bad_key_rejected_first (fun _ _ _ => some 7) 3 "secret" "t" "NOT-ALLOWLISTED"
    (some "rahavard") (some "wrong") (by decide)

/-- Closed instance of `resolve_preferred_first_then_fallback`: with two
retries, the preferred source failing both and the other source usable at
once, the result names the other source after 3 calls. -/
theorem resolve_preferred_first_then_fallback_check :
    resolve_price (fun src _ _ => if src = "chartix" then some 42 else none)
      2 "CD1G0B0001" "rahavard" = (some 42, "chartix", 3) :=
  (resolve_preferred_first_then_fallback
    (fun src _ _ => if src = "chartix" then some 42 else none) 2 "CD1G0B0001"
    "rahavard" (by decide) (by decide) (Or.inr rfl)
    (fun _ _ => rfl) 42 (by decide) (by decide)).2.2.2

/-- Closed instance of `resolve_exhaustion_gives_502`: an always-failing
network gives a 502 whose detail names the requested preferred source. -/
theorem resolve_exhaustion_gives_502_check :
    (get_price (fun _ _ _ => none) 1 "k" "t" "CD1G0B0001" (some "rahavard")
      (some "k")).1 =
      .error 502 ("Could not fetch last price from " ++ "rahavard" ++ "/fallbacks") :=
  resolve_exhaustion_gives_502.2 (fun _ _ _ => none) 1 "k" "t" "CD1G0B0001"
    "rahavard" (Or.inr rfl) (by decide) (by decide)

/-! ## Extractor claims -/

/-- C3: when the labeled pattern matches with a nonzero parse and the
fallback pattern also matches somewhere in the text, the extractor
returns the labeled value, never the fallback one. -/
theorem extract_prefers_labeled_match (html : String) (g : List Char) (v : Nat)
    (hg : searchLabel html.data = some g)
    (hv : to_int (String.mk g) = some v) (hv0 : v ≠ 0)
    (g2 : List Char) (h2 : searchRun html.data = some g2) :
    extract_last_price html = some v := by
  have hgne : g.isEmpty = false := by
    cases g with
    | nil =>
      exfalso
      rw [show String.mk [] = "" from rfl] at hv
      simp [to_int] at hv
    | cons a l => rfl
  simp only [extract_last_price, hg, hgne, hv, hv0]
  simp [hv0]

/-- Closed instance of `extract_prefers_labeled_match` on a page where
both patterns match. -/
theorem extract_prefers_labeled_match_check :
    extract_last_price "آخرین قیمت 123456 x 7654321" = some 123456 :=
  extract_prefers_labeled_match "آخرین قیمت 123456 x 7654321"
    ("123456".data) 123456 (by decide) (by decide) (by decide)
    ("123456".data) (by decide)

/-- A run of at least six consecutive digit characters (Persian or
Latin), the reading of "digit run of length at least 6" in the claim. -/
def hasSixDigitRun (cs : List Char) : Bool :=
  cs.tails.any (fun t => 6 ≤ (t.takeWhile isPLDigit).length)

/-- C4 counterexample: `"1,2,3,4"` contains no six consecutive digits and
no label, yet the fallback class also spans separators, so the extractor
returns 1234 instead of absent. -/
theorem extract_no_six_digit_run_cex :
    hasSixDigitRun "1,2,3,4".data = false ∧
    searchLabel "1,2,3,4".data = none ∧
    extract_last_price "1,2,3,4" = some 1234 := by
  decide

/-- C4 amended: when neither the labeled pattern nor the fallback pattern
(a digit followed by at least five digit/separator characters) matches,
the extractor returns absent. -/
theorem extract_absent_when_no_patterns (html : String)
    (h1 : searchLabel html.data = none) (h2 : searchRun html.data = none) :
    extract_last_price html = none := by
  simp only [extract_last_price, h1, h2]

/-- Closed instance of `extract_absent_when_no_patterns`. -/
theorem extract_absent_when_no_patterns_check :
    searchLabel "no prices here 123".data = none ∧
    searchRun "no prices here 123".data = none ∧
    extract_last_price "no prices here 123" = none :=
  ⟨by decide, by decide,
   extract_absent_when_no_patterns "no prices here 123" (by decide) (by decide)⟩

/-! ## Normalizer claims -/

/-- C5 counterexample: the handler's only normalization is `strip`, so a
lower-case alias spelling is neither upper-cased nor mapped to the
canonical symbol, and its request is rejected as unknown. -/
theorem normalizer_no_alias_cex :
    pyStrip "cd1gob0001" = "cd1gob0001" ∧
    pyStrip "cd1gob0001" ≠ "CD1G0B0001" ∧
    pyStrip "CD1GOB0001" ≠ "CD1G0B0001" ∧
    (get_price (fun _ _ _ => some 1234567) 3 "k" "t" "cd1gob0001"
      (some "rahavard") (some "k")).1 =
      .error 400 "Unknown symbol (allowlisted symbols only)" := by
  decide

/-- C5 amended: the handler only trims surrounding whitespace — no case
folding and no alias table.  `"cd1gob0001"` stays lower-case and is
rejected (400); `"CD1GOB0001"` is not rewritten to `"CD1G0B0001"` but is
accepted as its own allowlist entry. -/
theorem normalizer_strip_only :
    pyStrip " CD1GOB0001\t" = "CD1GOB0001" ∧
    pyStrip "cd1gob0001" = "cd1gob0001" ∧
    knownKeys.contains "cd1gob0001" = false ∧
    knownKeys.contains "CD1GOB0001" = true ∧
    (get_price (fun _ _ _ => some 1234567) 3 "k" "t" "cd1gob0001"
      (some "rahavard") (some "k")).1 =
      .error 400 "Unknown symbol (allowlisted symbols only)" ∧
    (get_price (fun _ _ _ => some 1234567) 3 "k" "t" " CD1GOB0001 "
      (some "rahavard") (some "k")).1 =
      .ok ⟨"CD1GOB0001", 1234567, "IRR", "unit",
        some "گواهی طلا ۰٫۱ گرم", "rahavard", "t"⟩ := by
  decide

/-! ## Number parser claims -/

/-- The Number Parser as the claim words it: transliterate Persian
digits, then strip every character that is not an ASCII digit, parsing
what remains. -/
def to_int_specAscii (num_text : String) : Option Nat :=
  if num_text = "" then none
  else
    let s := num_text.data.map persianToLatin
    let s2 := s.filter isAsciiDigit
    if s2 = [] then none else some (pyIntOfDigits s2)

/-- C6 counterexample: on the Arabic-Indic digit `٥` (U+0665) the code's
`[^\d]` keeps the character and `int()` parses it, yielding 5, while the
claimed ASCII-only stripping would leave nothing and yield absent. -/
theorem to_int_not_ascii_strip_cex :
    to_int "٥" = some 5 ∧ to_int_specAscii "٥" = none ∧
    to_int "٥" ≠ to_int_specAscii "٥" := by
  decide

/-- Decimal value of one character when it is a Unicode decimal digit,
`none` otherwise: an independent reformulation used to restate the
parser. -/
def charDigit? (c : Char) : Option Nat :=
  (ndBases.filterMap (fun b =>
    if inNdBlock b c.toNat then some (c.toNat - b) else none)).head?

/-- The Number Parser as amended: transliterate Persian digits, keep
exactly the Unicode decimal digits, and accumulate their values in base
ten; absent on empty input or when no digit remains. -/
def to_int_unicodeSpec (num_text : String) : Option Nat :=
  match num_text.data with
  | [] => none
  | cs =>
    match (cs.map persianToLatin).filterMap charDigit? with
    | [] => none
    | ds => some (ds.foldl (fun a d => a * 10 + d) 0)

theorem charDigit_eq (c : Char) :
    charDigit? c = if isUnicodeDigit c then some (digitVal c) else none := by
  have key : ∀ l : List Nat,
      (l.filterMap (fun b =>
        if inNdBlock b c.toNat then some (c.toNat - b) else none)).head?
      = (l.find? (fun b => inNdBlock b c.toNat)).map
          (fun b => c.toNat - b) := by
    intro l
    induction l with
    | nil => rfl
    | cons b l ih =>
      by_cases hb : inNdBlock b c.toNat = true
      · simp [List.filterMap_cons, List.find?, hb]
      · simp only [Bool.not_eq_true] at hb
        simp [List.filterMap_cons, List.find?, hb, ih]
  unfold charDigit?
  rw [key ndBases]
  rcases hfind : ndBases.find? (fun b => inNdBlock b c.toNat)
    with _ | b
  · have hdig : isUnicodeDigit c = false := by
      rw [isUnicodeDigit]
      by_contra hany
      simp only [Bool.not_eq_false, List.any_eq_true] at hany
      obtain ⟨b, hbmem, hbp⟩ := hany
      rw [List.find?_eq_none] at hfind
      exact absurd hbp (by simpa using hfind b hbmem)
    rw [hdig]
    simp
  · have hdig : isUnicodeDigit c = true := by
      rw [isUnicodeDigit, List.any_eq_true]
      refine ⟨b, List.mem_of_find?_eq_some hfind, ?_⟩
      simpa using List.find?_some hfind
    rw [hdig, if_pos rfl, digitVal, hfind]
    rfl

theorem filterMap_charDigit (l : List Char) :
    l.filterMap charDigit? = (l.filter isUnicodeDigit).map digitVal := by
  induction l with
  | nil => rfl
  | cons c l ih =>
    by_cases hc : isUnicodeDigit c = true
    · simp [List.filterMap_cons, List.filter_cons, hc, charDigit_eq, ih]
    · simp only [Bool.not_eq_true] at hc
      simp [List.filterMap_cons, List.filter_cons, hc, charDigit_eq, ih]

theorem pyIntOfDigits_eq_foldl (l : List Char) :
    pyIntOfDigits l = (l.map digitVal).foldl (fun a d => a * 10 + d) 0 := by
  rw [pyIntOfDigits, List.foldl_map]

theorem to_int_eq_unicodeSpec (s : String) : to_int s = to_int_unicodeSpec s := by
  rcases hs : s.data with _ | ⟨c, cs⟩
  · have hempty : s = "" := by
      cases s with
      | mk data => exact congrArg String.mk hs
    subst hempty
    rfl
  · have hne : s ≠ "" := by
      intro h
      rw [h] at hs
      exact List.noConfusion hs
    have hrhs : to_int_unicodeSpec s =
        match ((c :: cs).map persianToLatin).filterMap charDigit? with
        | [] => none
        | ds => some (ds.foldl (fun a d => a * 10 + d) 0) := by
      rw [to_int_unicodeSpec, hs]
    have hlhs : to_int s =
        (if ((c :: cs).map persianToLatin).filter isUnicodeDigit = [] then none
         else some (pyIntOfDigits
           (((c :: cs).map persianToLatin).filter isUnicodeDigit))) := by
      rw [to_int, if_neg hne, hs]
    rw [hlhs, hrhs, filterMap_charDigit]
    rcases hflt : ((c :: cs).map persianToLatin).filter isUnicodeDigit
      with _ | ⟨d, ds⟩
    · rfl
    · rw [if_neg (List.cons_ne_nil d ds), pyIntOfDigits_eq_foldl,
        List.map_cons]

/-- C6 amended: the parser equals the Unicode-digit formulation — strip
every character that is not a Unicode decimal digit after Persian-digit
transliteration, then parse by digit value — and on the claim's own
example `to_int("۱۲۳,۴۵۶") = 123456`. -/
theorem to_int_unicode_characterization :
    to_int "۱۲۳,۴۵۶" = some 123456 ∧
    ∀ s, to_int s = to_int_unicodeSpec s :=
  ⟨by decide, to_int_eq_unicodeSpec⟩

/-! ## Fetcher claim -/

/-- C7: each fetcher maps every transport failure and every non-200
status to absent, and on a 200 response returns exactly the extractor's
result on the body. -/
theorem fetchers_collapse_failures :
    (∀ (net : String → HttpResult) (symbol : String),
      net ("https://chartix.ir/market/BOURSE_KALA/" ++ symbol) = .failure →
      fetch_chartix net symbol = none) ∧
    (∀ (net : String → HttpResult) (symbol : String) (st : Nat) (text : String),
      st ≠ 200 →
      net ("https://chartix.ir/market/BOURSE_KALA/" ++ symbol) = .success st text →
      fetch_chartix net symbol = none) ∧
    (∀ (net : String → HttpResult) (symbol text : String),
      net ("https://chartix.ir/market/BOURSE_KALA/" ++ symbol) = .success 200 text →
      fetch_chartix net symbol = extract_last_price text) ∧
    (∀ (net : String → HttpResult) (symbol : String),
      net ("https://rahavard365.com/search?q=" ++ symbol) = .failure →
      fetch_rahavard net symbol = none) ∧
    (∀ (net : String → HttpResult) (symbol : String) (st : Nat) (text : String),
      st ≠ 200 →
      net ("https://rahavard365.com/search?q=" ++ symbol) = .success st text →
      fetch_rahavard net symbol = none) ∧
    (∀ (net : String → HttpResult) (symbol text : String),
      net ("https://rahavard365.com/search?q=" ++ symbol) = .success 200 text →
      fetch_rahavard net symbol = extract_last_price text) := by
  refine ⟨?_, ?_, ?_, ?_, ?_, ?_⟩
  · intro net symbol h; rw [fetch_chartix, h]
  · intro net symbol st text hst h; rw [fetch_chartix, h]; simp [hst]
  · intro net symbol text h; rw [fetch_chartix, h]; simp
  · intro net symbol h; rw [fetch_rahavard, h]
  · intro net symbol st text hst h; rw [fetch_rahavard, h]; simp [hst]
  · intro net symbol text h; rw [fetch_rahavard, h]; simp

/-- Closed instances of `fetchers_collapse_failures`: an exception, a 404
and a 200 response. -/
theorem fetchers_collapse_failures_check :
    fetch_chartix (fun _ => .failure) "CD1G0B0001" = none ∧
    fetch_rahavard (fun _ => .success 404 "x") "CD1G0B0001" = none ∧
    fetch_chartix (fun _ => .success 200 "آخرین قیمت 123456") "CD1G0B0001" =
      extract_last_price "آخرین قیمت 123456" :=
  ⟨fetchers_collapse_failures.1 (fun _ => .failure) "CD1G0B0001" rfl,
   fetchers_collapse_failures.2.2.2.2.1 (fun _ => .success 404 "x")
     "CD1G0B0001" 404 "x" (by decide) rfl,
   fetchers_collapse_failures.2.2.1 (fun _ => .success 200 "آخرین قیمت 123456")
     "CD1G0B0001" "آخرین قیمت 123456" rfl⟩

/-! ## Invariant and echo claims -/

/-- C8: a resolved price is never zero, and the `lastPrice` of every 200
response is strictly positive — zero or absent parses are "no price" at
the resolver's usability test and at the handler's final test. -/
theorem success_price_strictly_positive :
    (∀ (f : String → String → Nat → Option Nat) (retries : Nat)
       (sym prefer : String) (v : Nat) (s : String) (n : Nat),
       resolve_price f retries sym prefer = (some v, s, n) → 0 < v) ∧
    (∀ (f : String → String → Nat → Option Nat) (retries : Nat)
       (cfg now symbol : String) (prefer key : Option String)
       (resp : PriceResponse) (n : Nat),
       get_price f retries cfg now symbol prefer key = (.ok resp, n) →
       0 < resp.lastPrice) := by
  constructor
  · intro f retries sym prefer v s n h
    exact Nat.pos_of_ne_zero
      (resolveList_some_ne_zero f sym retries (ORDER prefer) v s n h)
  · intro f retries cfg now symbol prefer key resp n h
    simp only [get_price] at h
    split at h
    · exact absurd h (by simp)
    · split at h
      · exact absurd h (by simp)
      · split at h
        · exact absurd h (by simp)
        · split at h
          · exact absurd h (by simp)
          · rename_i hv
            simp only [Prod.mk.injEq, HandlerResult.ok.injEq] at h
            rw [← h.1]
            exact Nat.pos_of_ne_zero hv

/-- Closed instance of `success_price_strictly_positive` on a request
that succeeds with price 7. -/
theorem success_price_strictly_positive_check :
    0 < (PriceResponse.mk "CD1G0B0001" 7 "IRR" "unit"
      (some "گواهی طلا ۰٫۱ گرم") "rahavard" "t").lastPrice :=
  success_price_strictly_positive.2 (fun _ _ _ => some 7) 3 "k" "t"
    "CD1G0B0001" (some "rahavard") (some "k")
    (PriceResponse.mk "CD1G0B0001" 7 "IRR" "unit"
      (some "گواهی طلا ۰٫۱ گرم") "rahavard" "t") 1 (by decide)

/-- C10: the symbol in every 200 response is exactly the query symbol
after whitespace trimming — never case-folded or rewritten — and the typo
spelling `CD1GOB0001` is its own allowlist entry, resolved and echoed
under that exact spelling. -/
theorem response_symbol_is_stripped_input :
    (∀ (f : String → String → Nat → Option Nat) (retries : Nat)
       (cfg now symbol : String) (prefer key : Option String)
       (resp : PriceResponse) (n : Nat),
       get_price f retries cfg now symbol prefer key = (.ok resp, n) →
       resp.symbol = pyStrip symbol) ∧
    knownKeys.contains "CD1GOB0001" = true ∧
    knownKeys.contains "CD1G0B0001" = true ∧
    (get_price (fun _ _ _ => some 9999999) 1 "k" "t" "CD1GOB0001"
      (some "chartix") (some "k")).1 =
      .ok ⟨"CD1GOB0001", 9999999, "IRR", "unit",
        some "گواهی طلا ۰٫۱ گرم", "chartix", "t"⟩ := by
  refine ⟨?_, by decide, by decide, by decide⟩
  intro f retries cfg now symbol prefer key resp n h
  simp only [get_price] at h
  split at h
  · exact absurd h (by simp)
  · split at h
    · exact absurd h (by simp)
    · split at h
      · exact absurd h (by simp)
      · split at h
        · exact absurd h (by simp)
        · simp only [Prod.mk.injEq, HandlerResult.ok.injEq] at h
          rw [← h.1]

/-- Closed instance of `response_symbol_is_stripped_input`: the typo
spelling comes back verbatim. -/
theorem response_symbol_is_stripped_input_check :
    (PriceResponse.mk "CD1GOB0001" 9999999 "IRR" "unit"
      (some "گواهی طلا ۰٫۱ گرم") "chartix" "t").symbol = pyStrip "CD1GOB0001" :=
  response_symbol_is_stripped_input.1 (fun _ _ _ => some 9999999) 1 "k" "t"
    "CD1GOB0001" (some "chartix") (some "k")
    (PriceResponse.mk "CD1GOB0001" 9999999 "IRR" "unit"
      (some "گواهی طلا ۰٫۱ گرم") "chartix" "t") 1 (by decide)

end PriceProxy
